import Mathlib

/-!
Shallow embedding of the TEN framework Python runtime-bridge core:

* `AudioBufferManager`
  (src/ai_agents/agents/ten_packages/extension/assemblyai_asr_python/audio_buffer_manager.py)
* `GlobalThreadManager`
  (src/core/src/ten_runtime/binding/python/interface/ten_runtime/global_thread_manager.py)
* `AsyncExtension` thread-mode selection and exception wrappers
  (src/core/src/ten_runtime/binding/python/interface/ten_runtime/async_extension.py)

The Python code is single-threaded cooperative asyncio code; every operation
below is the atomic effect of the corresponding method between suspension
points, executed by one main coroutine.  Where a method only schedules work
(e.g. `close()` uses `loop.create_task`), the deferred effect is modelled
explicitly and delivered at the next point where the main coroutine actually
yields to the event loop, exactly as CPython's cooperative scheduler does.
-/

/-! ## Audio buffer (audio_buffer_manager.py)

Bytes are modelled as natural numbers; a Python `bytes`/`bytearray` value is a
`List Nat`.

`asyncio` scheduling facts used by the embedding (all deterministic for a
single main coroutine driving the API):
* `asyncio.Lock.acquire` on an uncontended lock and
  `Condition.wait_for` with an initially true predicate do not yield to the
  event loop, so `push_audio` never yields, and `pull_chunk` yields only when
  its wait predicate `len(buffer) >= threshold or closed` is initially false.
* `close()` called from a running event loop only schedules `_close()` with
  `loop.create_task`; the closed flag is actually set at the next yield of the
  main coroutine, which (for this API) is the next `pull_chunk` whose wait
  predicate is initially false.  This is recorded in `pendingClose`.
* `close()` called with no running loop (`asyncio.run`) sets the flag at once.
-/

structure AudioBufferManager where
  buffer : List Nat
  threshold : Nat
  closed : Bool
  pendingClose : Bool
deriving DecidableEq

set_option maxRecDepth 8000

namespace AudioBufferManager

/-- Constructor: `threshold` must be a positive integer, otherwise
`ValueError` (modelled as `none`).  A fresh buffer is empty and open. -/
def init (threshold : Int) : Option AudioBufferManager :=
  if threshold ≤ 0 then none
  else some ⟨[], threshold.toNat, false, false⟩

/-- Method `push_audio`: appends the data to the internal buffer.  The source does
this unconditionally (`self._buffer.extend(data)`); only the
`notify_all` call is guarded by `if not self._closed`. -/
def push_audio (s : AudioBufferManager) (data : List Nat) : AudioBufferManager :=
  { s with buffer := s.buffer ++ data }

/-- Whether `push_audio` notifies waiting consumers
(`if not self._closed: self._cond.notify_all()`). -/
def push_notifies (s : AudioBufferManager) : Bool :=
  !s.closed

/-- The scheduled `_close()` coroutine running on the loop: sets the closed
flag (and wakes all waiters). -/
def deliver_close (s : AudioBufferManager) : AudioBufferManager :=
  { s with closed := true, pendingClose := false }

/-- Method `close()`: with a running event loop (`insideLoop = true`) it only
schedules `_close()` via `loop.create_task`, recorded in `pendingClose`;
otherwise `asyncio.run(_close())` sets the flag immediately. -/
def close (s : AudioBufferManager) (insideLoop : Bool) : AudioBufferManager :=
  if insideLoop then { s with pendingClose := true } else { s with closed := true }

/-- Body of `pull_chunk` after `wait_for` returned, i.e. under the predicate
`len(buffer) >= threshold or closed`:
* closed: return the whole remaining buffer (cleared), or `b""` if empty;
* otherwise, if `len(buffer) >= threshold`, remove and return exactly
  `threshold` bytes. -/
def pull_ready (s : AudioBufferManager) : List Nat × AudioBufferManager :=
  if s.closed then
    if s.buffer.isEmpty then ([], s)
    else (s.buffer, { s with buffer := [] })
  else if s.threshold ≤ s.buffer.length then
    (s.buffer.take s.threshold, { s with buffer := s.buffer.drop s.threshold })
  else ([], s)

/-- Method `pull_chunk`: if the wait predicate already holds, the body runs without
yielding (a pending `_close()` task has not run yet).  Otherwise the consumer
blocks and the main coroutine yields: a pending `_close()` task runs now and
wakes the waiter; with no pending close and no producer the call stays
suspended (`none`). -/
def pull_chunk (s : AudioBufferManager) :
    Option (List Nat × AudioBufferManager) :=
  if s.threshold ≤ s.buffer.length ∨ s.closed then
    some (pull_ready s)
  else if s.pendingClose then
    some (pull_ready (deliver_close s))
  else
    none

/-- Iterate `pull_chunk` a fixed number of times, collecting the returned
chunks in order (stopping if a pull would block). -/
def pullN (s : AudioBufferManager) : Nat → List (List Nat) × AudioBufferManager
  | 0 => ([], s)
  | k + 1 =>
    match pull_chunk s with
    | none => ([], s)
    | some (c, s') =>
      let r := pullN s' k
      (c :: r.1, r.2)

/-- The first `k` chunks of size `n` of a list, in order. -/
def chunkSeq (n : Nat) : Nat → List Nat → List (List Nat)
  | 0, _ => []
  | k + 1, l => l.take n :: chunkSeq n k (l.drop n)

end AudioBufferManager

/-! ## Global thread manager (global_thread_manager.py)

All manager methods run under `self._lock`, so each one is a single atomic
transition on the manager state.  The worker thread itself is modelled by the
discrete steps it can take between blocking points:

* `thread_routine_enter` — the prefix of `_thread_routine` up to
  `run_until_complete(self._stop_event.wait())`: create a fresh event loop,
  install it as `_main_loop`, signal `_loop_ready_event`.
* `worker_step` — a live worker blocked in `self._stop_event.wait()` observes
  the event: if (and only if) the event is set it proceeds to
  `thread_routine_exit`.
* `thread_routine_exit` — the suffix of `_thread_routine`: drain pending
  tasks, `self._main_loop.close()`, and the thread function returns (the
  thread is no longer alive).  Note that `_thread_routine` never resets
  `_main_thread`, `_main_loop` or `_stop_event`.

An `asyncio.Event` is a plain flag (`stop_event`).  `run_coroutine_threadsafe`
submits `set_stop_event()` through `loop.call_soon_threadsafe`, which first
checks the loop: on a closed loop it raises
`RuntimeError("Event loop is closed")` in the caller without enqueueing
anything; on an open loop the worker blocked in `stop_event.wait()` executes
the callback, setting the event. -/

/-- An asyncio event loop: identity plus whether `close()` has been called. -/
structure EventLoop where
  id : Nat
  closed : Bool
deriving DecidableEq

structure GlobalThreadManager where
  ref_count : Int
  /-- Value `none`: `_main_thread is None`; `some b`: a thread object whose
  `is_alive()` returns `b`. -/
  main_thread : Option Bool
  main_loop : Option EventLoop
  /-- Flag `self._stop_event.is_set()`. -/
  stop_event : Bool
  /-- Flag `self._loop_ready_event.is_set()`. -/
  loop_ready : Bool
  /-- modelling device: source of fresh loop identities for `new_event_loop` -/
  next_loop_id : Nat
deriving DecidableEq

namespace GlobalThreadManager

/-- Method `__init__` (first construction of the singleton). -/
def initial : GlobalThreadManager :=
  { ref_count := 0, main_thread := none, main_loop := none,
    stop_event := false, loop_ready := false, next_loop_id := 0 }

/-- Prefix of `_thread_routine`: create a new event loop, publish it as
`_main_loop`, and set `_loop_ready_event`. -/
def thread_routine_enter (m : GlobalThreadManager) : GlobalThreadManager :=
  { m with main_loop := some ⟨m.next_loop_id, false⟩, loop_ready := true,
           next_loop_id := m.next_loop_id + 1 }

/-- Suffix of `_thread_routine` after `stop_event.wait()` returns: clean up
pending tasks, close the loop, and let the thread function return.  The
handles `_main_thread` / `_main_loop` and the stop event are left as they
are. -/
def thread_routine_exit (m : GlobalThreadManager) : GlobalThreadManager :=
  { m with main_loop := m.main_loop.map (fun l => { l with closed := true }),
           main_thread := some false }

/-- A live worker blocked in `run_until_complete(self._stop_event.wait())`
proceeds exactly when the stop event is set. -/
def worker_step (m : GlobalThreadManager) : GlobalThreadManager :=
  if m.stop_event = true ∧ m.main_thread = some true then thread_routine_exit m
  else m

/-- Method `get_or_start_thread`: under the lock, if there is no thread or the thread
is not alive, clear the ready event and start a fresh worker thread; then
(outside the lock) wait for `_loop_ready_event` and return `_main_loop`.
The freshly started worker runs `thread_routine_enter` and then immediately
observes the stop event (`worker_step`): if the stop event is already set the
new worker exits at once.  The `none` result models the `assert
self._main_loop is not None` failing. -/
def get_or_start_thread (m : GlobalThreadManager) :
    Option EventLoop × GlobalThreadManager :=
  if m.main_thread = none ∨ m.main_thread = some false then
    let started := thread_routine_enter
      { m with main_thread := some true, loop_ready := false }
    let settled := worker_step started
    (settled.main_loop, settled)
  else
    (m.main_loop, m)

/-- The `AssertionError` raised by `get_thread` before the loop exists. -/
inductive ManagerError where
  | notStarted
deriving DecidableEq

/-- Method `get_thread`: `assert self._main_loop is not None` then return it;
purely read-only. -/
def get_thread (m : GlobalThreadManager) : Except ManagerError EventLoop :=
  match m.main_loop with
  | none => Except.error ManagerError.notStarted
  | some l => Except.ok l

/-- Method `increment_ref_count`. -/
def increment_ref_count (m : GlobalThreadManager) : GlobalThreadManager :=
  { m with ref_count := m.ref_count + 1 }

deriving instance DecidableEq for Except

/-- The `RuntimeError("Event loop is closed")` that `call_soon_threadsafe`
raises when `run_coroutine_threadsafe` targets a closed loop. -/
inductive LoopError where
  | loopClosed
deriving DecidableEq

/-- Result of `decrement_ref_count`: the value of `return self._ref_count`
(or the `RuntimeError` propagating out of the method instead, when
`run_coroutine_threadsafe` is given a closed loop), whether a
`set_stop_event()` coroutine was actually submitted to the loop, and the new
state.  The count mutation precedes the submission in the source, so the
state update persists even when the call raises. -/
structure DecrementResult where
  returned : Except LoopError Int
  scheduled_stop : Bool
  state : GlobalThreadManager
deriving DecidableEq

/-- Method `decrement_ref_count`: `self._ref_count -= 1`; if the result is `≤ 0` it
is clamped to `0` and, when `_main_loop is not None`, a `set_stop_event()`
coroutine is submitted to the loop with `run_coroutine_threadsafe`.  On an
open loop the blocked worker runs it, setting the event; on a closed loop
`call_soon_threadsafe` raises `RuntimeError` to the caller, so nothing is
scheduled and the `return` is never reached (the count having already been
clamped to `0`). -/
def decrement_ref_count (m : GlobalThreadManager) : DecrementResult :=
  let c := m.ref_count - 1
  if c ≤ 0 then
    match m.main_loop with
    | some l =>
      if l.closed then
        { returned := Except.error LoopError.loopClosed, scheduled_stop := false,
          state := { m with ref_count := 0 } }
      else
        { returned := Except.ok 0, scheduled_stop := true,
          state := { m with ref_count := 0, stop_event := true } }
    | none =>
      { returned := Except.ok 0, scheduled_stop := false,
        state := { m with ref_count := 0 } }
  else
    { returned := Except.ok c, scheduled_stop := false,
      state := { m with ref_count := c } }

/-- Method `get_ref_count`. -/
def get_ref_count (m : GlobalThreadManager) : Int :=
  m.ref_count

/-- The shared-mode attach path of `AsyncExtension._proxy_on_configure_single_thread`
(async_extension.py lines 153-166), i.e. the spec's `acquire()`:
`increment_ref_count()` followed by `get_or_start_thread()`. -/
def acquire (m : GlobalThreadManager) :
    Option EventLoop × GlobalThreadManager :=
  get_or_start_thread (increment_ref_count m)

/-- Modelled from the spec: the spec's `release()` — the termination path of a
shared-mode extension instance.  The decrementing caller itself
(`async_ten_env.py`) is not among the sources; per the spec, terminating an
instance "decrements the reference count", which is exactly
`decrement_ref_count` of global_thread_manager.py. -/
def release (m : GlobalThreadManager) : DecrementResult :=
  decrement_ref_count m

/-- The manager operations that mutate state, for stating invariants over
arbitrary call sequences. -/
inductive ManagerOp where
  | inc
  | dec
  | getOrStart
  | worker
deriving DecidableEq

def apply_op (m : GlobalThreadManager) : ManagerOp → GlobalThreadManager
  | ManagerOp.inc => increment_ref_count m
  | ManagerOp.dec => (decrement_ref_count m).state
  | ManagerOp.getOrStart => (get_or_start_thread m).2
  | ManagerOp.worker => worker_step m

def apply_ops (m : GlobalThreadManager) (ops : List ManagerOp) :
    GlobalThreadManager :=
  ops.foldl apply_op m

/-- State after `n` shared-mode instances attaching in turn, starting from a fresh
manager. -/
def acquireN : Nat → GlobalThreadManager
  | 0 => initial
  | n + 1 => (acquire (acquireN n)).2

/-- State after `k` instances terminating in turn (each termination releases once). -/
def releaseN : Nat → GlobalThreadManager → GlobalThreadManager
  | 0, m => m
  | k + 1, m => releaseN k (release m).state

end GlobalThreadManager

/-! ## Async extension (async_extension.py)

Thread-mode selection (`_get_cached_thread_mode` / `is_single_thread_mode`)
and the exception wrappers (`_wrapper_on_*` / `_exit_on_exception`).  The
module-level cache `_cached_thread_mode` and the environment variable
`TEN_PYTHON_THREAD_MODE` are passed explicitly (`none` = unset / `None`). -/

namespace AsyncExtension

/-- Constant `ThreadMode.SINGLE_THREAD`. -/
def SINGLE_THREAD : String := "single_thread"

/-- Constant `ThreadMode.MULTI_THREAD`. -/
def MULTI_THREAD : String := "multi_thread"

/-- Result of `_get_cached_thread_mode`: returned mode, the module cache
afterwards, and whether the invalid-mode warning was logged. -/
structure ThreadModeRead where
  mode : String
  cache : Option String
  warned : Bool
deriving DecidableEq

/-- Function `_get_cached_thread_mode`: if `_cached_thread_mode` is set, return it;
otherwise read `TEN_PYTHON_THREAD_MODE` (default `SINGLE_THREAD`), fall back
to `SINGLE_THREAD` with a warning when the value is not one of the two
recognized modes, and cache the outcome. -/
def get_cached_thread_mode (cached : Option String) (envVar : Option String) :
    ThreadModeRead :=
  match cached with
  | some m => { mode := m, cache := some m, warned := false }
  | none =>
    let mode := envVar.getD SINGLE_THREAD
    if mode = SINGLE_THREAD ∨ mode = MULTI_THREAD then
      { mode := mode, cache := some mode, warned := false }
    else
      { mode := SINGLE_THREAD, cache := some SINGLE_THREAD, warned := true }

/-- Function `is_single_thread_mode`. -/
def is_single_thread_mode (cached : Option String) (envVar : Option String) :
    Bool :=
  (get_cached_thread_mode cached envVar).mode = SINGLE_THREAD

/-- The nine lifecycle / message callbacks wrapped by `_wrapper_on_*`. -/
inductive CallbackKind where
  | onConfigure
  | onInit
  | onStart
  | onStop
  | onDeinit
  | onCmd
  | onData
  | onVideoFrame
  | onAudioFrame
deriving DecidableEq

/-- Observable effects of `_exit_on_exception`. -/
structure ExitReport where
  /-- the `async_ten_env.log(LogLevel.ERROR, ...)` call succeeded -/
  hostLogged : Bool
  /-- the fallback `print` ran because the log call reported an error -/
  consolePrinted : Bool
  /-- the logged / printed text -/
  message : String
  stdoutFlushed : Bool
  stderrFlushed : Bool
  /-- argument of `os._exit` -/
  exitCode : Nat
deriving DecidableEq

/-- Method `_exit_on_exception`: log the error and traceback through the host
logger (printing to the console instead if that fails), flush stdout and
stderr, and call `os._exit(1)`. -/
def exit_on_exception (logSucceeds : Bool) (e : String)
    (tracebackInfo : String) : ExitReport :=
  { hostLogged := logSucceeds
    consolePrinted := !logSucceeds
    message := "Uncaught exception: " ++ e ++ " \ntraceback: " ++ tracebackInfo
    stdoutFlushed := true
    stderrFlushed := true
    exitCode := 1 }

/-- How a `_wrapper_on_*` coroutine ends: the user callback completed, or the
process was terminated by `_exit_on_exception`. -/
inductive WrapperOutcome where
  | completed
  | processExit (report : ExitReport)
deriving DecidableEq

/-- The shared body of every `_wrapper_on_*` method:
`try: await self.on_xxx(...) except Exception as e: self._exit_on_exception(...)`.
The user callback either returns (`Except.ok`) or raises (`Except.error`). -/
def wrapper_body (result : Except String Unit) (logSucceeds : Bool)
    (tracebackInfo : String) : WrapperOutcome :=
  match result with
  | Except.ok _ => WrapperOutcome.completed
  | Except.error e =>
    WrapperOutcome.processExit (exit_on_exception logSucceeds e tracebackInfo)

/-- Methods `_wrapper_on_config`, `_wrapper_on_init`, ..., `_wrapper_on_audio_frame`:
each wrapper runs its own user callback inside the identical
try/except body. -/
def run_wrapper (k : CallbackKind) (user : CallbackKind → Except String Unit)
    (logSucceeds : Bool) (tracebackInfo : String) : WrapperOutcome :=
  wrapper_body (user k) logSucceeds tracebackInfo

end AsyncExtension

/-! ## Helper lemmas: audio buffer -/

namespace AudioBufferManager

theorem foldl_push_audio (pushes : List (List Nat)) (s : AudioBufferManager) :
    pushes.foldl push_audio s = { s with buffer := s.buffer ++ pushes.flatten } := by
  induction pushes generalizing s with
  | nil => simp [push_audio]
  | cons p ps ih =>
    simp only [List.foldl_cons, List.flatten_cons, ih, push_audio, List.append_assoc]

theorem pull_ready_closed (s : AudioBufferManager) (h : s.closed = true) :
    (pull_ready s).1 = s.buffer ∧ (pull_ready s).2.closed = true ∧
      (pull_ready s).2.buffer = [] := by
  unfold pull_ready
  rw [if_pos h]
  by_cases hb : s.buffer.isEmpty
  · rw [if_pos hb]
    rw [List.isEmpty_eq_true] at hb
    exact ⟨hb.symm, h, hb⟩
  · rw [if_neg hb]
    exact ⟨rfl, h, rfl⟩

theorem pull_ready_closed_eq (s : AudioBufferManager) (h : s.closed = true) :
    pull_ready s = (s.buffer, { s with buffer := [] }) := by
  unfold pull_ready
  rw [if_pos h]
  by_cases hb : s.buffer.isEmpty
  · rw [if_pos hb]
    rw [List.isEmpty_eq_true] at hb
    obtain ⟨b, t, cl, pc⟩ := s
    simp only at hb
    subst hb
    rfl
  · rw [if_neg hb]

theorem pull_chunk_closed (s : AudioBufferManager) (h : s.closed = true) :
    pull_chunk s = some (s.buffer, { s with buffer := [] }) := by
  unfold pull_chunk
  rw [if_pos (Or.inr h), pull_ready_closed_eq s h]

theorem pull_chunk_pending (s : AudioBufferManager) (hc : s.closed = false)
    (hp : s.pendingClose = true) (hlt : s.buffer.length < s.threshold) :
    pull_chunk s = some (s.buffer, ⟨[], s.threshold, true, false⟩) := by
  unfold pull_chunk
  rw [if_neg (by rw [hc]; simpa using hlt), if_pos hp,
    pull_ready_closed_eq (deliver_close s) rfl]
  rfl

theorem pull_ready_open_ge (s : AudioBufferManager) (hc : s.closed = false)
    (hth : s.threshold ≤ s.buffer.length) :
    pull_ready s = (s.buffer.take s.threshold,
      { s with buffer := s.buffer.drop s.threshold }) := by
  unfold pull_ready
  rw [hc]
  simp [hth]

theorem pull_chunk_of_open_ge (s : AudioBufferManager) (hc : s.closed = false)
    (hth : s.threshold ≤ s.buffer.length) :
    pull_chunk s = some (s.buffer.take s.threshold,
      { s with buffer := s.buffer.drop s.threshold }) := by
  simp [pull_chunk, pull_ready, hc, hth]

theorem pullN_of_open (k : Nat) :
    ∀ s : AudioBufferManager, s.closed = false → s.pendingClose = false →
      s.threshold * k ≤ s.buffer.length →
      pullN s k = (chunkSeq s.threshold k s.buffer,
        { s with buffer := s.buffer.drop (s.threshold * k) }) := by
  induction k with
  | zero =>
    intro s _ _ _
    simp [pullN, chunkSeq]
  | succ k ih =>
    intro s hc hp hlen
    have hth : s.threshold ≤ s.buffer.length := by
      have h1 : s.threshold * 1 ≤ s.threshold * (k + 1) :=
        Nat.mul_le_mul_left _ (by omega)
      rw [Nat.mul_one] at h1
      exact le_trans h1 hlen
    have hlen1 : s.threshold * k ≤ s.buffer.length - s.threshold := by
      refine Nat.le_sub_of_add_le ?_
      rw [← Nat.mul_succ]
      exact hlen
    have hrec := ih { s with buffer := s.buffer.drop s.threshold } hc hp
      (by simpa using hlen1)
    simp only [pullN, pull_chunk_of_open_ge s hc hth, hrec, chunkSeq]
    refine Prod.ext rfl ?_
    simp [List.drop_drop, Nat.mul_succ, Nat.add_comm]

theorem chunkSeq_length (n : Nat) (k : Nat) :
    ∀ l : List Nat, n * k ≤ l.length →
      ∀ c ∈ chunkSeq n k l, c.length = n := by
  induction k with
  | zero =>
    intro l _ c hc
    simp [chunkSeq] at hc
  | succ k ih =>
    intro l hlen c hc
    have hth : n ≤ l.length := by
      have h1 : n * 1 ≤ n * (k + 1) := Nat.mul_le_mul_left _ (by omega)
      rw [Nat.mul_one] at h1
      exact le_trans h1 hlen
    simp only [chunkSeq, List.mem_cons] at hc
    rcases hc with rfl | hc
    · simp [List.length_take]
      omega
    · refine ih (l.drop n) ?_ c hc
      simp only [List.length_drop]
      refine Nat.le_sub_of_add_le ?_
      rw [← Nat.mul_succ]
      exact hlen

end AudioBufferManager

/-! ## Claim theorems: audio buffer -/

open AudioBufferManager in
/-- Claim C1: before close, whenever the accumulated size is at least the
threshold, a pull removes and returns exactly `threshold` bytes (no chunk is
split across two pulls); and in the concrete scenario — threshold 1600, push
1000 bytes, push 1000 bytes, `close()` from inside the loop — the first pull
returns 1600 bytes, the second pull returns the sub-threshold remainder of
400 bytes, and the third pull returns an empty result. -/
theorem audio_buffer_no_split_and_scenario :
    (∀ s : AudioBufferManager, s.closed = false →
      s.threshold ≤ s.buffer.length →
      pull_chunk s = some (s.buffer.take s.threshold,
        { s with buffer := s.buffer.drop s.threshold })) ∧
    (pull_chunk (close (push_audio (push_audio ⟨[], 1600, false, false⟩
          (List.replicate 1000 0)) (List.replicate 1000 1)) true)
        = some (List.replicate 1000 0 ++ List.replicate 600 1,
            ⟨List.replicate 400 1, 1600, false, true⟩) ∧
      (List.replicate 1000 0 ++ List.replicate 600 1).length = 1600 ∧
      pull_chunk ⟨List.replicate 400 1, 1600, false, true⟩
        = some (List.replicate 400 1, ⟨[], 1600, true, false⟩) ∧
      (List.replicate 400 1).length = 400 ∧
      pull_chunk ⟨[], 1600, true, false⟩
        = some ([], ⟨[], 1600, true, false⟩)) := by
  refine ⟨fun s hc hth => pull_chunk_of_open_ge s hc hth, ?_, by simp, ?_, by simp, ?_⟩
  · simp [pull_chunk, pull_ready, close, push_audio,
      List.take_append_eq_append_take, List.drop_append_eq_append_drop]
  · simp [pull_chunk, pull_ready, deliver_close]
  · simp [pull_chunk, pull_ready]

open AudioBufferManager in
/-- Witness for `audio_buffer_no_split_and_scenario`: the general part at a
concrete open buffer of 3 bytes with threshold 2. -/
theorem audio_buffer_no_split_and_scenario_witness :
    pull_chunk ⟨[5, 6, 7], 2, false, false⟩
      = some ([5, 6], ⟨[7], 2, false, false⟩) := by
  have h := audio_buffer_no_split_and_scenario.1 ⟨[5, 6, 7], 2, false, false⟩
    rfl (by decide)
  simpa using h

open AudioBufferManager in
/-- Claim C4 counterexample: on the closed buffer reached by closing a fresh
threshold-1600 buffer (outside any loop), `push_audio` of the byte `9` does
not leave the accumulated contents unchanged — the buffer grows from `[]` to
`[9]` — and the next pull returns exactly those post-close bytes, so they are
observed by a later pull. -/
theorem audio_push_after_close_cex :
    (push_audio (close ⟨[], 1600, false, false⟩ false) [9]).buffer = [9] ∧
    (close ⟨[], 1600, false, false⟩ false).buffer = [] ∧
    pull_chunk (push_audio (close ⟨[], 1600, false, false⟩ false) [9])
      = some ([9], ⟨[], 1600, true, false⟩) ∧
    [9] ≠ ([] : List Nat) := by
  refine ⟨rfl, rfl, ?_, by decide⟩
  simp [pull_chunk, pull_ready, close, push_audio]

open AudioBufferManager in
/-- Claim C4 (amended): once a buffer is closed, `push_audio` still appends
the data to the accumulated contents — only the notification of waiting
consumers is skipped — so bytes pushed after close can be observed by a later
pull (which returns the whole accumulated remainder). -/
theorem audio_push_after_close_appends (s : AudioBufferManager)
    (d : List Nat) (h : s.closed = true) :
    push_audio s d = { s with buffer := s.buffer ++ d } ∧
    push_notifies s = false ∧
    (s.buffer ++ d ≠ [] →
      pull_chunk (push_audio s d)
        = some (s.buffer ++ d, { s with buffer := [] })) := by
  refine ⟨rfl, by simp [push_notifies, h], fun hne => ?_⟩
  simp [pull_chunk, pull_ready, push_audio, h, hne]

open AudioBufferManager in
/-- Witness for `audio_push_after_close_appends` at a closed buffer holding
`[1]` with threshold 4, pushing `[2, 3]`. -/
theorem audio_push_after_close_appends_witness :
    push_audio ⟨[1], 4, true, false⟩ [2, 3] = ⟨[1, 2, 3], 4, true, false⟩ ∧
    pull_chunk (push_audio ⟨[1], 4, true, false⟩ [2, 3])
      = some ([1, 2, 3], ⟨[], 4, true, false⟩) := by
  have h := audio_push_after_close_appends ⟨[1], 4, true, false⟩ [2, 3] rfl
  exact ⟨h.1, h.2.2 (by decide)⟩

open AudioBufferManager in
/-- Claim C9: a pull that completes with an empty result can only happen on a
closed buffer (the resulting state has the closed flag set), and on an open
buffer with no close scheduled every pull that completes returns a non-empty
chunk — a consumer may treat an empty result as end-of-stream. -/
theorem audio_pull_empty_only_if_closed (s : AudioBufferManager)
    (hth : 0 < s.threshold) :
    (∀ c s', pull_chunk s = some (c, s') → c = [] → s'.closed = true) ∧
    (s.closed = false → s.pendingClose = false →
      ∀ c s', pull_chunk s = some (c, s') → c ≠ []) := by
  have htake : ∀ hge : s.threshold ≤ s.buffer.length,
      s.buffer.take s.threshold ≠ [] := by
    intro hge habs
    rw [List.take_eq_nil_iff] at habs
    rcases habs with h0 | h0
    · omega
    · rw [h0] at hge
      simp at hge
      omega
  constructor
  · intro c s' hpull hnil
    subst hnil
    unfold pull_chunk at hpull
    by_cases h1 : s.threshold ≤ s.buffer.length ∨ s.closed = true
    · rw [if_pos h1, Option.some_inj] at hpull
      have hs' : (pull_ready s).2 = s' := by rw [hpull]
      by_cases hcl : s.closed = true
      · have hr := pull_ready_closed s hcl
        rw [← hs']
        exact hr.2.1
      · have hge : s.threshold ≤ s.buffer.length := by
          rcases h1 with hge | h0
          · exact hge
          · exact absurd h0 hcl
        have hc1 : (pull_ready s).1 = [] := by rw [hpull]
        rw [pull_ready_open_ge s (by simpa using hcl) hge] at hc1
        exact absurd hc1 (htake hge)
    · rw [if_neg h1] at hpull
      by_cases hpend : s.pendingClose = true
      · rw [if_pos hpend, Option.some_inj] at hpull
        have hs' : (pull_ready (deliver_close s)).2 = s' := by rw [hpull]
        have hr := pull_ready_closed (deliver_close s) rfl
        rw [← hs']
        exact hr.2.1
      · rw [if_neg hpend] at hpull
        exact absurd hpull (by simp)
  · intro hc hp c s' hpull hnil
    subst hnil
    unfold pull_chunk at hpull
    by_cases hge : s.threshold ≤ s.buffer.length
    · rw [if_pos (Or.inl hge), Option.some_inj] at hpull
      have hc1 : (pull_ready s).1 = [] := by rw [hpull]
      rw [pull_ready_open_ge s hc hge] at hc1
      exact htake hge hc1
    · rw [if_neg (by rw [hc]; simpa using hge), if_neg (by rw [hp]; simp)]
        at hpull
      exact absurd hpull (by simp)

open AudioBufferManager in
/-- Witness for `audio_pull_empty_only_if_closed` at a closed buffer with
threshold 2: the empty pull indeed lands in a closed state. -/
theorem audio_pull_empty_only_if_closed_witness :
    (⟨[], 2, true, false⟩ : AudioBufferManager).closed = true := by
  refine (audio_pull_empty_only_if_closed ⟨[], 2, true, false⟩ (by decide)).1
    [] ⟨[], 2, true, false⟩ ?_ rfl
  simp [pull_chunk, pull_ready]

open AudioBufferManager in
/-- Claim C5: for every chunk size `n > 0` and every sequence of pushes whose
bytes `data` total `k * n + r` with `r < n`: constructing succeeds, the pushes
accumulate `data`, the `k` pulls performed before close each return exactly
`n` bytes — the consecutive `n`-byte chunks of `data` in push order — the
pull performed after `close` returns exactly the `r` remaining bytes, and
every pull after the closed buffer is drained returns an empty result. -/
theorem audio_buffer_chunk_partition (n : Nat) (hn : 0 < n)
    (pushes : List (List Nat)) (insideLoop : Bool) (data : List Nat)
    (hdata : data = pushes.flatten) (k r : Nat)
    (hk : data.length = k * n + r) (hr : r < n) :
    init (n : Int) = some ⟨[], n, false, false⟩ ∧
    pushes.foldl push_audio ⟨[], n, false, false⟩ = ⟨data, n, false, false⟩ ∧
    pullN ⟨data, n, false, false⟩ k
      = (chunkSeq n k data, ⟨data.drop (n * k), n, false, false⟩) ∧
    (∀ c ∈ chunkSeq n k data, c.length = n) ∧
    (data.drop (n * k)).length = r ∧
    pull_chunk (close ⟨data.drop (n * k), n, false, false⟩ insideLoop)
      = some (data.drop (n * k), ⟨[], n, true, false⟩) ∧
    pull_chunk ⟨[], n, true, false⟩ = some ([], ⟨[], n, true, false⟩) := by
  have hnk : n * k ≤ data.length := by
    rw [hk, Nat.mul_comm n k]
    exact Nat.le_add_right _ _
  have hrlen : (data.drop (n * k)).length = r := by
    rw [List.length_drop, hk, Nat.mul_comm n k]
    exact Nat.add_sub_cancel_left _ _
  refine ⟨?_, ?_, ?_, chunkSeq_length n k data hnk, hrlen, ?_, ?_⟩
  · unfold init
    rw [if_neg (by exact_mod_cast Nat.not_le.mpr hn)]
    simp
  · rw [foldl_push_audio, hdata]
    rfl
  · exact pullN_of_open k ⟨data, n, false, false⟩ rfl rfl hnk
  · cases insideLoop with
    | true =>
      have h := pull_chunk_pending ⟨data.drop (n * k), n, false, true⟩ rfl rfl
        (by rw [hrlen]; exact hr)
      simpa [close] using h
    | false =>
      have h := pull_chunk_closed ⟨data.drop (n * k), n, true, false⟩ rfl
      simpa [close] using h
  · exact pull_chunk_closed ⟨[], n, true, false⟩ rfl

open AudioBufferManager in
/-- Witness for `audio_buffer_chunk_partition`: chunk size 2, pushes
`[1,2,3]` then `[4,5]`, so `k = 2` and `r = 1`. -/
theorem audio_buffer_chunk_partition_witness :
    pullN ⟨[1, 2, 3, 4, 5], 2, false, false⟩ 2
      = ([[1, 2], [3, 4]], ⟨[5], 2, false, false⟩) ∧
    pull_chunk (close ⟨[5], 2, false, false⟩ true)
      = some ([5], ⟨[], 2, true, false⟩) ∧
    pull_chunk ⟨[], 2, true, false⟩ = some ([], ⟨[], 2, true, false⟩) := by
  have h := audio_buffer_chunk_partition 2 (by decide) [[1, 2, 3], [4, 5]]
    true [1, 2, 3, 4, 5] (by decide) 2 1 (by decide) (by decide)
  refine ⟨?_, ?_, h.2.2.2.2.2.2⟩
  · have h3 := h.2.2.1
    simpa [chunkSeq] using h3
  · have h6 := h.2.2.2.2.2.1
    simpa using h6

/-! ## Helper lemmas: global thread manager -/

namespace GlobalThreadManager

theorem acquire_of_alive (m : GlobalThreadManager)
    (h : m.main_thread = some true) :
    acquire m = (m.main_loop, { m with ref_count := m.ref_count + 1 }) := by
  unfold acquire get_or_start_thread increment_ref_count
  rw [if_neg]
  rw [h]
  simp

theorem acquireN_succ_eq (n : Nat) :
    acquireN (n + 1)
      = ⟨(n : Int) + 1, some true, some ⟨0, false⟩, false, true, 1⟩ := by
  induction n with
  | zero => rfl
  | succ n ih =>
    show (acquire (acquireN (n + 1))).2 = _
    rw [ih, acquire_of_alive _ rfl]
    simp only
    refine congrArg (fun c => (⟨c, some true, some ⟨0, false⟩, false, true, 1⟩ :
      GlobalThreadManager)) ?_
    push_cast
    ring

theorem get_or_start_dead_eq (m : GlobalThreadManager)
    (h : m.main_thread = none ∨ m.main_thread = some false) :
    get_or_start_thread m
      = if m.stop_event
        then (some ⟨m.next_loop_id, true⟩,
          ⟨m.ref_count, some false, some ⟨m.next_loop_id, true⟩, true, true,
            m.next_loop_id + 1⟩)
        else (some ⟨m.next_loop_id, false⟩,
          ⟨m.ref_count, some true, some ⟨m.next_loop_id, false⟩, false, true,
            m.next_loop_id + 1⟩) := by
  obtain ⟨rc, mt, ml, se, lr, ni⟩ := m
  unfold get_or_start_thread
  rw [if_pos (by simpa using h)]
  cases se <;> rfl

theorem release_of_ge_two (m : GlobalThreadManager) (h : 2 ≤ m.ref_count) :
    release m = ⟨Except.ok (m.ref_count - 1), false,
      { m with ref_count := m.ref_count - 1 }⟩ := by
  unfold release decrement_ref_count
  rw [if_neg (by omega)]

theorem releaseN_from (j : Nat) :
    releaseN j ⟨(j : Int) + 1, some true, some ⟨0, false⟩, false, true, 1⟩
      = ⟨1, some true, some ⟨0, false⟩, false, true, 1⟩ := by
  induction j with
  | zero => rfl
  | succ j ih =>
    show releaseN j (release _).state = _
    rw [release_of_ge_two _ (by push_cast; omega)]
    simp only
    have harith : ((j : Int) + 1) + 1 - 1 = (j : Int) + 1 := by ring
    rw [show (((j : Nat) + 1 : Nat) : Int) + 1 - 1 = (j : Int) + 1 by push_cast; ring]
    exact ih

end GlobalThreadManager

/-! ## Claim theorems: global thread manager -/

open GlobalThreadManager in
/-- Claim C3: with `j + 2` shared-mode instances attached (each attach is
`increment_ref_count` + `get_or_start_thread`), terminating all but one —
each termination releasing once, per the spec's release path — leaves the
worker thread alive, the loop open and the stop event unset; the termination
of the last instance decrements the reference count to zero, schedules the
stop signal, and the worker then observes it and exits (thread no longer
alive, loop closed). -/
theorem manager_last_release_stops_worker (j : Nat) :
    releaseN (j + 1) (acquireN (j + 2))
      = ⟨1, some true, some ⟨0, false⟩, false, true, 1⟩ ∧
    (release (releaseN (j + 1) (acquireN (j + 2)))).returned = Except.ok 0 ∧
    (release (releaseN (j + 1) (acquireN (j + 2)))).scheduled_stop = true ∧
    (release (releaseN (j + 1) (acquireN (j + 2)))).state.stop_event = true ∧
    worker_step (release (releaseN (j + 1) (acquireN (j + 2)))).state
      = ⟨0, some false, some ⟨0, true⟩, true, true, 1⟩ := by
  have hN : acquireN (j + 2)
      = ⟨((j + 1 : Nat) : Int) + 1, some true, some ⟨0, false⟩, false, true, 1⟩ :=
    acquireN_succ_eq (j + 1)
  have hpart : releaseN (j + 1) (acquireN (j + 2))
      = ⟨1, some true, some ⟨0, false⟩, false, true, 1⟩ := by
    rw [hN]
    exact releaseN_from (j + 1)
  rw [hpart]
  refine ⟨rfl, ?_, ?_, ?_, ?_⟩ <;> decide

open GlobalThreadManager in
/-- Claim C2 (code bug): after one acquire and one release the worker shuts
down, but `_thread_routine` clears neither `_main_thread` nor `_main_loop`,
and nothing ever resets `_stop_event`; a subsequent acquire does start a
fresh worker (the liveness check fires) whose new loop becomes ready, yet the
restarted worker immediately observes the still-set stop event and exits
without any new stop signal having been issued. -/
theorem manager_restart_stale_stop_event :
    (worker_step (decrement_ref_count
        (acquire GlobalThreadManager.initial).2).state).main_thread = some false ∧
    (worker_step (decrement_ref_count
        (acquire GlobalThreadManager.initial).2).state).main_loop = some ⟨0, true⟩ ∧
    (worker_step (decrement_ref_count
        (acquire GlobalThreadManager.initial).2).state).stop_event = true ∧
    ((acquire (worker_step (decrement_ref_count
        (acquire GlobalThreadManager.initial).2).state)).1.map EventLoop.id)
      = some 1 ∧
    (acquire (worker_step (decrement_ref_count
        (acquire GlobalThreadManager.initial).2).state)).2.loop_ready = true ∧
    (acquire (worker_step (decrement_ref_count
        (acquire GlobalThreadManager.initial).2).state)).2.main_thread
      = some false ∧
    (acquire (worker_step (decrement_ref_count
        (acquire GlobalThreadManager.initial).2).state)).2.main_loop
      = some ⟨1, true⟩ ∧
    (acquire (worker_step (decrement_ref_count
        (acquire GlobalThreadManager.initial).2).state)).2.stop_event = true := by
  decide

open GlobalThreadManager in
/-- Claim C8: `get_thread` with no loop yet (in particular before any acquire
has ever created one) fails with the `NotStarted` precondition violation; it
returns `Except.ok l` exactly when the stored loop handle is `l` (so it never
silently produces a default or null handle); and after a successful acquire
it returns the existing loop handle — `get_thread` itself reads the state
without modifying it. -/
theorem manager_get_thread_spec (m : GlobalThreadManager)
    (hinv : m.main_thread = some true → m.main_loop.isSome = true) :
    (m.main_loop = none →
      get_thread m = Except.error ManagerError.notStarted) ∧
    (∀ l, get_thread m = Except.ok l ↔ m.main_loop = some l) ∧
    (∃ l, (acquire m).2.main_loop = some l ∧
      get_thread ((acquire m).2) = Except.ok l ∧ (acquire m).1 = some l) := by
  refine ⟨fun h => by simp [get_thread, h], fun l => ?_, ?_⟩
  · unfold get_thread
    cases m.main_loop with
    | none => simp
    | some l' => simp
  · by_cases hdead : m.main_thread = none ∨ m.main_thread = some false
    · unfold acquire
      rw [get_or_start_dead_eq (increment_ref_count m)
        (by simpa [increment_ref_count] using hdead)]
      split
      · exact ⟨⟨(increment_ref_count m).next_loop_id, true⟩, rfl, rfl, rfl⟩
      · exact ⟨⟨(increment_ref_count m).next_loop_id, false⟩, rfl, rfl, rfl⟩
    · have halive : m.main_thread = some true := by
        rcases hm : m.main_thread with _ | b
        · exact absurd (Or.inl hm) hdead
        · cases b with
          | false => exact absurd (Or.inr hm) hdead
          | true => rfl
      have hsome := hinv halive
      rcases hl : m.main_loop with _ | l
      · rw [hl] at hsome
        simp at hsome
      · rw [acquire_of_alive m halive]
        exact ⟨l, by simpa using hl, by simp [get_thread, hl], by simpa using hl⟩

open GlobalThreadManager in
/-- Witness for `manager_get_thread_spec`: on a fresh manager `get_thread`
fails with `NotStarted`; after the first acquire it returns the new loop. -/
theorem manager_get_thread_spec_witness :
    get_thread GlobalThreadManager.initial
      = Except.error ManagerError.notStarted ∧
    get_thread ((acquire GlobalThreadManager.initial).2)
      = Except.ok ⟨0, false⟩ := by
  constructor
  · exact (manager_get_thread_spec GlobalThreadManager.initial
      (by intro h; cases h)).1 rfl
  · exact ((manager_get_thread_spec ((acquire GlobalThreadManager.initial).2)
      (by intro _; rfl)).2.1 ⟨0, false⟩).mpr rfl

open GlobalThreadManager in
/-- Claim C10 counterexample: (a) for the call sequence `dec, inc, inc, dec`
(2 increments, 2 decrements, more decrements than increments at the start),
the final `decrement_ref_count` returns `1`, not
`max 0 (increments − decrements) = max 0 (2 − 2) = 0` — the zero-clamp of the
first decrement is not remembered by the formula; and (b) at the reachable
post-shutdown state (acquire, release, worker exits and closes the loop) a
further decrement reaches zero while a loop handle exists, yet it schedules
nothing: `run_coroutine_threadsafe` raises
`RuntimeError("Event loop is closed")` to the caller instead. -/
theorem manager_decrement_formula_cex :
    (decrement_ref_count (apply_ops GlobalThreadManager.initial
        [ManagerOp.dec, ManagerOp.inc, ManagerOp.inc])).returned
      = Except.ok 1 ∧
    (decrement_ref_count (apply_ops GlobalThreadManager.initial
        [ManagerOp.dec, ManagerOp.inc, ManagerOp.inc])).returned
      ≠ Except.ok (max 0 ((2 : Int) - 2)) ∧
    (worker_step (decrement_ref_count
        (acquire GlobalThreadManager.initial).2).state).main_loop
      = some ⟨0, true⟩ ∧
    (decrement_ref_count (worker_step (decrement_ref_count
        (acquire GlobalThreadManager.initial).2).state)).returned
      = Except.error LoopError.loopClosed ∧
    (decrement_ref_count (worker_step (decrement_ref_count
        (acquire GlobalThreadManager.initial).2).state)).scheduled_stop
      = false := by
  decide

open GlobalThreadManager in
/-- Claim C10 (amended): the stored reference count never goes below zero for
any sequence of manager operations, and a decrement always stores the clamped
count `max 0 (previous − 1)`; when `decrement_ref_count` returns (rather than
raising), it returns that clamped count; it raises
`RuntimeError("Event loop is closed")` exactly when the count reaches (or
would pass) zero while the stored loop handle is already closed, scheduling
nothing in that case; and it schedules the stop signal exactly when the count
reaches (or would pass) zero while the stored loop handle exists and is still
open. -/
theorem manager_ref_count_clamped :
    (∀ ops : List ManagerOp,
      0 ≤ (apply_ops GlobalThreadManager.initial ops).ref_count) ∧
    (∀ m : GlobalThreadManager,
      (decrement_ref_count m).state.ref_count = max 0 (m.ref_count - 1) ∧
      (∀ c, (decrement_ref_count m).returned = Except.ok c →
        c = max 0 (m.ref_count - 1)) ∧
      ((decrement_ref_count m).returned
          = Except.error LoopError.loopClosed ↔
        m.ref_count - 1 ≤ 0 ∧ ∃ l, m.main_loop = some l ∧ l.closed = true) ∧
      ((decrement_ref_count m).returned
          = Except.error LoopError.loopClosed →
        (decrement_ref_count m).scheduled_stop = false) ∧
      ((decrement_ref_count m).scheduled_stop = true ↔
        m.ref_count - 1 ≤ 0 ∧
          ∃ l, m.main_loop = some l ∧ l.closed = false)) := by
  have hstep : ∀ (m : GlobalThreadManager) (op : ManagerOp),
      0 ≤ m.ref_count → 0 ≤ (apply_op m op).ref_count := by
    intro m op hm
    cases op with
    | inc => simp only [apply_op, increment_ref_count]; omega
    | dec =>
      simp only [apply_op, decrement_ref_count]
      by_cases h : m.ref_count - 1 ≤ 0
      · rw [if_pos h]
        cases hl : m.main_loop with
        | none => simp
        | some l =>
          obtain ⟨lid, lc⟩ := l
          cases lc <;> simp
      · rw [if_neg h]
        simp only
        omega
    | getOrStart =>
      simp only [apply_op]
      by_cases h : m.main_thread = none ∨ m.main_thread = some false
      · rw [get_or_start_dead_eq m h]
        by_cases hs : m.stop_event = true
        · rw [if_pos hs]
          exact hm
        · rw [if_neg hs]
          exact hm
      · unfold get_or_start_thread
        rw [if_neg h]
        exact hm
    | worker =>
      simp only [apply_op, worker_step]
      by_cases h : m.stop_event = true ∧ m.main_thread = some true
      · rw [if_pos h]
        exact hm
      · rw [if_neg h]
        exact hm
  constructor
  · intro ops
    have hgen : ∀ (ops : List ManagerOp) (m : GlobalThreadManager),
        0 ≤ m.ref_count → 0 ≤ (apply_ops m ops).ref_count := by
      intro ops
      induction ops with
      | nil => intro m hm; exact hm
      | cons op rest ih =>
        intro m hm
        exact ih (apply_op m op) (hstep m op hm)
    exact hgen ops GlobalThreadManager.initial (by simp [GlobalThreadManager.initial])
  · intro m
    unfold decrement_ref_count
    by_cases h : m.ref_count - 1 ≤ 0
    · rw [if_pos h]
      cases hl : m.main_loop with
      | none =>
        refine ⟨by simp; omega, ?_, ?_, ?_, ?_⟩
        · intro c hc
          simp at hc
          omega
        · simp
        · intro hc
          simp at hc
        · simp
      | some l =>
        obtain ⟨lid, lc⟩ := l
        cases lc with
        | true =>
          refine ⟨by simp; omega, ?_, ?_, ?_, ?_⟩
          · intro c hc
            simp at hc
          · constructor
            · intro _
              exact ⟨h, ⟨lid, true⟩, rfl, rfl⟩
            · intro _
              rfl
          · intro _
            rfl
          · constructor
            · intro hc
              simp at hc
            · rintro ⟨-, l', hl', hcl'⟩
              simp only [Option.some_inj] at hl'
              rw [← hl'] at hcl'
              simp at hcl'
        | false =>
          refine ⟨by simp; omega, ?_, ?_, ?_, ?_⟩
          · intro c hc
            simp at hc
            omega
          · constructor
            · intro hc
              simp at hc
            · rintro ⟨-, l', hl', hcl'⟩
              simp only [Option.some_inj] at hl'
              rw [← hl'] at hcl'
              simp at hcl'
          · intro hc
            simp at hc
          · constructor
            · intro _
              exact ⟨h, ⟨lid, false⟩, rfl, rfl⟩
            · intro _
              rfl
    · rw [if_neg h]
      refine ⟨by simp; omega, ?_, ?_, ?_, ?_⟩
      · intro c hc
        simp at hc
        omega
      · constructor
        · intro hc
          simp at hc
        · rintro ⟨hc, -⟩
          exact absurd hc h
      · intro hc
        simp at hc
      · constructor
        · intro hc
          simp at hc
        · rintro ⟨hc, -⟩
          exact absurd hc h

open GlobalThreadManager in
/-- Witness for `manager_ref_count_clamped`: the count stays non-negative for
a sequence with an early excess decrement, and at the concrete post-shutdown
state the raising decrement indeed has a closed stored loop. -/
theorem manager_ref_count_clamped_witness :
    0 ≤ (apply_ops GlobalThreadManager.initial
        [ManagerOp.dec, ManagerOp.dec, ManagerOp.inc]).ref_count ∧
    (∃ l, (⟨0, some false, some ⟨0, true⟩, true, true, 1⟩ :
        GlobalThreadManager).main_loop = some l ∧ l.closed = true) := by
  constructor
  · exact manager_ref_count_clamped.1
      [ManagerOp.dec, ManagerOp.dec, ManagerOp.inc]
  · exact ((manager_ref_count_clamped.2
      ⟨0, some false, some ⟨0, true⟩, true, true, 1⟩).2.2.1.mp (by decide)).2

/-! ## Claim theorems: async extension -/

open AsyncExtension in
/-- Claim C6: for every lifecycle or message callback, an uncaught exception
escaping the user coroutine makes the wrapper call `_exit_on_exception`:
the error is logged with the full stack trace (falling back to a console
print when the host logger fails), stdout and stderr are flushed, and the
process exits with code 1 — the wrapper never completes normally and never
swallows the exception, while a callback that returns normally completes. -/
theorem wrapper_uncaught_exception_exits (k : AsyncExtension.CallbackKind)
    (user : AsyncExtension.CallbackKind → Except String Unit)
    (logOk : Bool) (tb e : String) (herr : user k = Except.error e) :
    run_wrapper k user logOk tb
      = WrapperOutcome.processExit
          { hostLogged := logOk
            consolePrinted := !logOk
            message := "Uncaught exception: " ++ e ++ " \ntraceback: " ++ tb
            stdoutFlushed := true
            stderrFlushed := true
            exitCode := 1 } ∧
    run_wrapper k user logOk tb ≠ WrapperOutcome.completed ∧
    (∀ user2 : AsyncExtension.CallbackKind → Except String Unit,
      user2 k = Except.ok () →
      run_wrapper k user2 logOk tb = WrapperOutcome.completed) := by
  refine ⟨?_, ?_, ?_⟩
  · unfold run_wrapper wrapper_body
    rw [herr]
    rfl
  · unfold run_wrapper wrapper_body
    rw [herr]
    simp
  · intro user2 hok
    unfold run_wrapper wrapper_body
    rw [hok]

open AsyncExtension in
/-- Witness for `wrapper_uncaught_exception_exits`: the `on_cmd` wrapper with
a callback raising `boom` and a working host logger. -/
theorem wrapper_uncaught_exception_exits_witness :
    run_wrapper AsyncExtension.CallbackKind.onCmd
        (fun _ => Except.error "boom") true "tb"
      = WrapperOutcome.processExit
          { hostLogged := true
            consolePrinted := false
            message := "Uncaught exception: boom \ntraceback: tb"
            stdoutFlushed := true
            stderrFlushed := true
            exitCode := 1 } := by
  have h := wrapper_uncaught_exception_exits AsyncExtension.CallbackKind.onCmd
    (fun _ => Except.error "boom") true "tb" "boom" rfl
  exact h.1

open AsyncExtension in
/-- Claim C7: the thread mode is read from the environment once and cached:
with an empty cache the unset variable yields the default `single_thread`
(shared) mode with no warning, a recognized value is adopted as read, and any
other value logs a warning and falls back to `single_thread`; the cache
always ends up holding the returned mode, and every later query returns the
cached mode unchanged (and warns no further), whatever the environment then
contains. -/
theorem thread_mode_cached_default_fallback :
    (get_cached_thread_mode none none
      = { mode := SINGLE_THREAD, cache := some SINGLE_THREAD,
          warned := false }) ∧
    (∀ v : String, v = SINGLE_THREAD ∨ v = MULTI_THREAD →
      get_cached_thread_mode none (some v)
        = { mode := v, cache := some v, warned := false }) ∧
    (∀ v : String, ¬ (v = SINGLE_THREAD ∨ v = MULTI_THREAD) →
      get_cached_thread_mode none (some v)
        = { mode := SINGLE_THREAD, cache := some SINGLE_THREAD,
            warned := true }) ∧
    (∀ cached envVar : Option String,
      (get_cached_thread_mode cached envVar).cache
        = some (get_cached_thread_mode cached envVar).mode) ∧
    (∀ cached envVar envVar2 : Option String,
      get_cached_thread_mode (get_cached_thread_mode cached envVar).cache
          envVar2
        = { mode := (get_cached_thread_mode cached envVar).mode
            cache := some (get_cached_thread_mode cached envVar).mode
            warned := false }) := by
  have hcache : ∀ cached envVar : Option String,
      (get_cached_thread_mode cached envVar).cache
        = some (get_cached_thread_mode cached envVar).mode := by
    intro cached envVar
    unfold get_cached_thread_mode
    cases cached with
    | some m => rfl
    | none =>
      by_cases h : (envVar.getD SINGLE_THREAD) = SINGLE_THREAD ∨
          (envVar.getD SINGLE_THREAD) = MULTI_THREAD
      · rw [if_pos h]
      · rw [if_neg h]
  refine ⟨rfl, ?_, ?_, hcache, ?_⟩
  · intro v hv
    unfold get_cached_thread_mode
    rw [if_pos (by simpa using hv)]
    rfl
  · intro v hv
    unfold get_cached_thread_mode
    rw [if_neg (by simpa using hv)]
  · intro cached envVar envVar2
    rw [hcache cached envVar]
    rfl

open AsyncExtension in
/-- Witness for `thread_mode_cached_default_fallback`: the unrecognized value
`bogus` warns and falls back to `single_thread`, and the subsequent query
returns the cached mode even though the environment changed. -/
theorem thread_mode_cached_default_fallback_witness :
    get_cached_thread_mode none (some "bogus")
      = { mode := "single_thread", cache := some "single_thread",
          warned := true } ∧
    get_cached_thread_mode
        (get_cached_thread_mode none (some "bogus")).cache (some "bogus")
      = { mode := "single_thread", cache := some "single_thread",
          warned := false } := by
  constructor
  · exact thread_mode_cached_default_fallback.2.2.1 "bogus" (by decide)
  · have h := thread_mode_cached_default_fallback.2.2.2.2 none
      (some "bogus") (some "bogus")
    rw [h]
    have h1 := thread_mode_cached_default_fallback.2.2.1 "bogus" (by decide)
    rw [h1]
    rfl

open GlobalThreadManager in
/-- Witness for `manager_last_release_stops_worker` at two instances: after
the second release the worker has exited and the loop is closed. -/
theorem manager_last_release_stops_worker_witness :
    worker_step (release (releaseN 1 (acquireN 2))).state
      = ⟨0, some false, some ⟨0, true⟩, true, true, 1⟩ :=
  (manager_last_release_stops_worker 0).2.2.2.2
